import Mathlib

/-!
Shallow embedding of `src/bot.py`: a Telegram bot with a per-user chat
history forwarded to a chat-completion API, an image-generation flow and an
image-edit flow, dispatched by aiogram filters in registration order, plus an
aiohttp webhook handler.

The mutable module-level dictionaries `user_context` and `user_edit_state`
and the filesystem of temporary image files become fields of `BotState`.
Each aiogram handler becomes a function from the state (and the fields of the
incoming message it reads) to a `StepResult`: the new state, the outbound
HTTP calls made to the AI providers, and the messages answered to the user.
Outcomes of the remote HTTP calls are parameters (`ChatOutcome`,
`ApiOutcome`, `UploadOutcome`), with a raised Python exception modelled as
`Except.error` at exactly the program points that can raise.
-/

/-- One entry of `user_context[user_id]`: a dict `{"role": ..., "content": ...}`. -/
structure ChatMsg where
  role : String
  content : String
deriving DecidableEq

/-- One entry of `user_edit_state`: the per-user dict which may hold `"image_path"`. -/
structure EditEntry where
  image_path : Option String
deriving DecidableEq

/-- The shared mutable state of `bot.py`: the two module-level dicts and the
set of temporary image files currently existing on disk. -/
structure BotState where
  user_context : List (Nat × List ChatMsg)
  user_edit_state : List (Nat × EditEntry)
  files : List String
deriving DecidableEq

/-- Dictionary lookup (`d.get(k)` / `k in d`). -/
def lookupD {α : Type} : List (Nat × α) → Nat → Option α
  | [], _ => none
  | (k, v) :: rest, k' => if k = k' then some v else lookupD rest k'

/-- Dictionary update `d[k] = v`. -/
def insertD {α : Type} : List (Nat × α) → Nat → α → List (Nat × α)
  | [], k, v => [(k, v)]
  | (k', v') :: rest, k, v =>
    if k' = k then (k, v) :: rest else (k', v') :: insertD rest k v

/-- Dictionary removal `d.pop(k, None)`. -/
def eraseD {α : Type} : List (Nat × α) → Nat → List (Nat × α)
  | [], _ => []
  | (k', v') :: rest, k =>
    if k' = k then eraseD rest k else (k', v') :: eraseD rest k

/-- The fields of an incoming Telegram message that the handlers inspect. -/
structure Msg where
  uid : Nat
  text : Option String
  replyToText : Option String
  hasPhoto : Bool
  hasDocument : Bool
  docMime : String
deriving DecidableEq

/-- Keyboard button, handler filter `F.text == "🖼 Сгенерировать изображение"`. -/
def genKw : String := "🖼 Сгенерировать изображение"

/-- Keyboard button, handler filter `F.text == "✏️ Редактировать изображение"`. -/
def editKw : String := "✏️ Редактировать изображение"

/-- Keyboard button, handler filter `F.text == "🔄 Сбросить контекст"`. -/
def resetKw : String := "🔄 Сбросить контекст"

/-- The keyword list excluded from `handle_ai_chat` by `~F.text.in_(...)`. -/
def menuKeywords : List String := [genKw, editKw, resetKw]

/-- The bot prompt whose reply triggers `generate_image`. -/
def genPromptMsg : String := "Введите запрос для генерации:"

/-- Filter `Command("start", "help")`. -/
def cmdStartHelp (m : Msg) : Bool :=
  m.text = some ("/start") || m.text = some ("/help")

/-- Truthiness of `F.text`: present and non-empty. -/
def textTruthy (m : Msg) : Bool :=
  match m.text with
  | some t => t != ""
  | none => false

/-- Which registered aiogram handler receives the message. -/
inductive Route where
  | start
  | resetCtx
  | askGen
  | askEdit
  | genImage
  | uploadImg
  | editProcess
  | chat
  | noMatch
deriving DecidableEq

/-- Dispatch in handler registration order, first match wins, mirroring the
`@dp.message(...)` filters of `bot.py` top to bottom. -/
def route (st : BotState) (m : Msg) : Route :=
  if cmdStartHelp m then Route.start
  else if m.text = some resetKw then Route.resetCtx
  else if m.text = some genKw then Route.askGen
  else if m.text = some editKw then Route.askEdit
  else if textTruthy m && m.replyToText == some genPromptMsg then Route.genImage
  else if m.hasPhoto || m.hasDocument then Route.uploadImg
  else if textTruthy m && (lookupD st.user_edit_state m.uid).isSome then Route.editProcess
  else if textTruthy m && !(menuKeywords.map Option.some).contains m.text then Route.chat
  else Route.noMatch

/-- An outbound HTTP call to one of the AI providers. -/
inductive AdapterCall where
  | chatCall (history : List ChatMsg)
  | imageGen (prompt : String)
  | imageEdit (imagePath : String) (instruction : String)
deriving DecidableEq

/-- A message the bot answers to the user. -/
inductive Reply where
  | text (s : String)
  | photo (caption : String)
deriving DecidableEq

/-- What one handler invocation produced: new state, provider calls, replies. -/
structure StepResult where
  state : BotState
  calls : List AdapterCall
  replies : List Reply
deriving DecidableEq

/-- Outcome of `requests.post` to the DeepSeek chat endpoint followed by
`.json()["choices"][0]["message"]["content"]`: either the extracted answer,
or any raised exception (network error, timeout, bad JSON, missing key). -/
inductive ChatOutcome where
  | success (answer : String)
  | failure (errMsg : String)
deriving DecidableEq

/-- Outcome of `requests.post` to a Stability endpoint: an HTTP response
(status code, and its payload or parsed error message), or a raised
exception. -/
inductive ApiOutcome where
  | ok (payload : String)
  | httpError (code : Nat) (errMsg : String)
  | exn (errMsg : String)
deriving DecidableEq

/-- Outcome of downloading the user's file and writing the temp file. -/
inductive UploadOutcome where
  | stored (tmpName : String)
  | failed (errMsg : String)
deriving DecidableEq

/-- The DeepSeek request as a fallible computation: `Except.error` is a
Python exception escaping `requests.post(...).json()` and the extraction of
the answer, to be caught by the handler's `try/except`. -/
def chatCompletionRequest (o : ChatOutcome) : Except String String :=
  match o with
  | ChatOutcome.success answer => Except.ok answer
  | ChatOutcome.failure errMsg => Except.error errMsg

/-- A Stability request as a fallible computation returning status code and
body (payload on 200, else the `.json().get("message", ...)` error text). -/
def stabilityPost (o : ApiOutcome) : Except String (Nat × String) :=
  match o with
  | ApiOutcome.ok payload => Except.ok (200, payload)
  | ApiOutcome.httpError code errMsg => Except.ok (code, errMsg)
  | ApiOutcome.exn errMsg => Except.error errMsg

/-- Handler `cmd_start`: answers the capability summary. -/
def cmd_start (st : BotState) : StepResult :=
  ⟨st, [], [Reply.text ("✨ AI Бот с функциями")]⟩

/-- Handler `reset_context`: `user_context.pop(user_id, None)` and a
confirmation. Note it does not touch `user_edit_state` or the filesystem. -/
def reset_context (st : BotState) (uid : Nat) : StepResult :=
  ⟨{ st with user_context := eraseD st.user_context uid }, [],
    [Reply.text ("Контекст очищен!")]⟩

/-- Handler `ask_gen_prompt`: answers the generation prompt. -/
def ask_gen_prompt (st : BotState) : StepResult :=
  ⟨st, [], [Reply.text genPromptMsg]⟩

/-- Handler `ask_edit_photo`: `user_edit_state[user_id] = {}`. -/
def ask_edit_photo (st : BotState) (uid : Nat) : StepResult :=
  ⟨{ st with user_edit_state := insertD st.user_edit_state uid ⟨none⟩ }, [],
    [Reply.text ("Загрузите изображение:")]⟩

/-- Handler `generate_image`: strips the prompt, posts it to the generation
endpoint (no length validation exists in this handler), answers the photo on
200, the parsed error on other statuses, and catches any exception. -/
def generate_image (st : BotState) (text : String) (o : ApiOutcome) : StepResult :=
  let prompt := text.trim
  let attempt : Except String Reply :=
    match stabilityPost o with
    | Except.ok (code, body) =>
      if code = 200 then Except.ok (Reply.photo ("🎨 " ++ prompt))
      else Except.ok (Reply.text ("❌ Ошибка генерации: " ++ body))
    | Except.error errMsg => Except.error errMsg
  match attempt with
  | Except.ok r => ⟨st, [AdapterCall.imageGen prompt], [r]⟩
  | Except.error errMsg =>
    ⟨st, [AdapterCall.imageGen prompt], [Reply.text ("⚠️ Ошибка: " ++ errMsg)]⟩

/-- Handler `handle_image_upload`: ignores uploads outside an edit flow,
rejects non-image documents, otherwise downloads to a fresh temp file and
records its path; on an exception the edit state is dropped. -/
def handle_image_upload (st : BotState) (m : Msg) (o : UploadOutcome) : StepResult :=
  match lookupD st.user_edit_state m.uid with
  | none => ⟨st, [], []⟩
  | some _ =>
    if m.hasDocument && !(m.docMime.startsWith ("image/")) then
      ⟨st, [], [Reply.text ("Отправьте только JPEG/PNG!")]⟩
    else
      match o with
      | UploadOutcome.stored tmpName =>
        ⟨{ st with
            files := tmpName :: st.files,
            user_edit_state := insertD st.user_edit_state m.uid ⟨some tmpName⟩ },
          [], [Reply.text ("Теперь опишите изменения (например: \x27Убери фон\x27):")]⟩
      | UploadOutcome.failed errMsg =>
        ⟨{ st with user_edit_state := eraseD st.user_edit_state m.uid },
          [], [Reply.text ("⚠️ Ошибка загрузки: " ++ errMsg)]⟩

/-- Handler `process_image_edit`: if no stored image exists, reports and
drops the edit state; otherwise posts the image and instruction to the edit
endpoint and, in the `finally` block, unlinks the temp file (modelled as
filtering the path out of the filesystem) and pops the edit state, on every
path: 200, other statuses, and caught exceptions. -/
def process_image_edit (st : BotState) (uid : Nat) (text : String) (o : ApiOutcome) :
    StepResult :=
  let image_path := ((lookupD st.user_edit_state uid).getD ⟨none⟩).image_path
  match image_path with
  | none =>
    ⟨{ st with user_edit_state := eraseD st.user_edit_state uid }, [],
      [Reply.text ("❌ Изображение не найдено. Начните заново.")]⟩
  | some p =>
    if st.files.contains p then
      let attempt : Except String Reply :=
        match stabilityPost o with
        | Except.ok (code, body) =>
          if code = 200 then Except.ok (Reply.photo ("✏️ Редактирование: " ++ text))
          else Except.ok (Reply.text ("❌ Ошибка редактирования: " ++ body))
        | Except.error errMsg => Except.error errMsg
      let reply := match attempt with
        | Except.ok r => r
        | Except.error errMsg => Reply.text ("⚠️ Ошибка API: " ++ errMsg)
      ⟨{ st with
          files := st.files.filter (fun q => q != p),
          user_edit_state := eraseD st.user_edit_state uid },
        [AdapterCall.imageEdit p text], [reply]⟩
    else
      ⟨{ st with user_edit_state := eraseD st.user_edit_state uid }, [],
        [Reply.text ("❌ Изображение не найдено. Начните заново.")]⟩

/-- Handler `handle_ai_chat`: lazily creates the user's context, appends the
user turn, posts the whole stored context (no truncation) to the chat
endpoint, appends the assistant turn and answers it on success, and catches
any exception with an error message. -/
def handle_ai_chat (st : BotState) (uid : Nat) (text : String) (o : ChatOutcome) :
    StepResult :=
  let ctx := (lookupD st.user_context uid).getD []
  let ctx1 := ctx ++ [ChatMsg.mk ("user") text]
  let st1 := { st with user_context := insertD st.user_context uid ctx1 }
  match chatCompletionRequest o with
  | Except.ok answer =>
    let ctx2 := ctx1 ++ [ChatMsg.mk ("assistant") answer]
    ⟨{ st1 with user_context := insertD st1.user_context uid ctx2 },
      [AdapterCall.chatCall ctx1], [Reply.text answer]⟩
  | Except.error errMsg =>
    ⟨st1, [AdapterCall.chatCall ctx1], [Reply.text ("⚠️ Ошибка: " ++ errMsg)]⟩

/-- The outcomes of whichever remote calls the selected handler performs. -/
structure Outcomes where
  chat : ChatOutcome
  image : ApiOutcome
  edit : ApiOutcome
  upload : UploadOutcome
deriving DecidableEq

/-- One dispatcher turn: route the message and run the selected handler. -/
def step (st : BotState) (m : Msg) (o : Outcomes) : StepResult :=
  match route st m with
  | Route.start => cmd_start st
  | Route.resetCtx => reset_context st m.uid
  | Route.askGen => ask_gen_prompt st
  | Route.askEdit => ask_edit_photo st m.uid
  | Route.genImage => generate_image st (m.text.getD "") o.image
  | Route.uploadImg => handle_image_upload st m o.upload
  | Route.editProcess => process_image_edit st m.uid (m.text.getD "") o.edit
  | Route.chat => handle_ai_chat st m.uid (m.text.getD "") o.chat
  | Route.noMatch => ⟨st, [], []⟩

/-- A plain text message: no reply context, no attachment. -/
def plainText (uid : Nat) (t : String) : Msg :=
  ⟨uid, some t, none, false, false, ""⟩

/-- A fixed choice of benign outcomes for concrete traces. -/
def oAny : Outcomes :=
  ⟨ChatOutcome.success ("ok"), ApiOutcome.ok ("img"), ApiOutcome.ok ("img"),
    UploadOutcome.stored ("tmp")⟩

/-- Iterated chat turns of one user through `handle_ai_chat`, collecting the
outbound chat calls in order. -/
def runChatTurns (st : BotState) (uid : Nat) :
    List (String × ChatOutcome) → BotState × List AdapterCall
  | [] => (st, [])
  | (t, o) :: rest =>
    let r := handle_ai_chat st uid t o
    let (st', calls) := runChatTurns r.state uid rest
    (st', r.calls ++ calls)

/-- Length of the history carried by a chat call (0 for image calls). -/
def callHistLen : AdapterCall → Nat
  | AdapterCall.chatCall h => h.length
  | AdapterCall.imageGen _ => 0
  | AdapterCall.imageEdit _ _ => 0

/-- Body of an inbound webhook POST as `webhook_handler` classifies it:
unparseable JSON, a JSON object rejected by `Update(**data)`, an update
whose message fails `validate_message`, or a well-formed update. -/
inductive ReqBody where
  | notJson
  | invalidUpdate
  | invalidMessage
  | goodUpdate (m : Msg)
deriving DecidableEq

/-- Whether the body is a well-formed update. -/
def ReqBody.isGood : ReqBody → Bool
  | ReqBody.goodUpdate _ => true
  | _ => false

/-- The parts of an aiohttp request that `webhook_handler` inspects. -/
structure HttpRequest where
  method : String
  contentType : String
  body : ReqBody
deriving DecidableEq

/-- The HTTP response of `webhook_handler`, plus whether `dp.feed_update`
(the Router) was invoked for the request. -/
structure WebhookResponse where
  status : Nat
  bodyText : String
  reachedRouter : Bool
deriving DecidableEq

/-- The aiohttp handler `webhook_handler`: method and content-type checks,
JSON parse, `Update` construction and validation, then dispatch; a dispatch
exception yields 500, success yields 200 with body "OK". `dispatchOk` is
whether `dp.feed_update` returns without raising. -/
def webhook_handler (req : HttpRequest) (dispatchOk : Bool) : WebhookResponse :=
  if req.method ≠ ("POST") then ⟨405, ("Method Not Allowed"), false⟩
  else if req.contentType ≠ ("application/json") then
    ⟨415, ("Unsupported Media Type"), false⟩
  else
    match req.body with
    | ReqBody.notJson => ⟨400, ("Invalid JSON"), false⟩
    | ReqBody.invalidUpdate => ⟨400, ("Invalid update format"), false⟩
    | ReqBody.invalidMessage => ⟨400, ("Invalid message"), false⟩
    | ReqBody.goodUpdate _ =>
      if dispatchOk then ⟨200, ("OK"), true⟩
      else ⟨500, ("Internal Server Error"), true⟩

/-- A message carrying a photo and no text, as sent during an edit flow. -/
def photoMsg (uid : Nat) : Msg :=
  ⟨uid, none, none, true, false, ""⟩

/-- Trace state for C3: user 7 has chat history and a pending edit flow with
a stored temp file. -/
def c3State : BotState :=
  ⟨[(7, [ChatMsg.mk ("user") ("hi")])], [(7, EditEntry.mk (some ("tmpA")))], ["tmpA"]⟩

/-- Trace state for C5: user 1 tapped the edit keyword and uploaded a photo,
so an edit flow with stored image "tmp" is pending. -/
def c5PendingState : BotState :=
  (step (step ⟨[], [], []⟩ (plainText 1 editKw) oAny).state (photoMsg 1) oAny).state

/-- Trace state for C9: user 5 tapped the edit keyword and then issued the
reset keyword. -/
def c9State : BotState :=
  (step (step ⟨[], [], []⟩ (plainText 5 editKw) oAny).state (plainText 5 resetKw) oAny).state

/-- A 501-character image prompt. -/
def longPrompt : String := String.mk (List.replicate 501 'a')

theorem lookupD_eraseD_self {α : Type} (l : List (Nat × α)) (k : Nat) :
    lookupD (eraseD l k) k = none := by
  induction l with
  | nil => rfl
  | cons hd tl ih =>
    obtain ⟨k', v'⟩ := hd
    by_cases h : k' = k
    · simpa [eraseD, h] using ih
    · simp [eraseD, lookupD, h, ih]

theorem lookupD_eraseD_ne {α : Type} (l : List (Nat × α)) (k u : Nat) (h : u ≠ k) :
    lookupD (eraseD l k) u = lookupD l u := by
  induction l with
  | nil => rfl
  | cons hd tl ih =>
    obtain ⟨k', v'⟩ := hd
    by_cases hk : k' = k
    · subst hk
      simp [eraseD, lookupD, Ne.symm h, ih]
    · simp [eraseD, lookupD, hk, ih]

theorem lookupD_insertD_self {α : Type} (l : List (Nat × α)) (k : Nat) (v : α) :
    lookupD (insertD l k v) k = some v := by
  induction l with
  | nil => simp [insertD, lookupD]
  | cons hd tl ih =>
    obtain ⟨k', v'⟩ := hd
    by_cases h : k' = k
    · simp [insertD, lookupD, h]
    · simp [insertD, lookupD, h, ih]

theorem eraseD_idem {α : Type} (l : List (Nat × α)) (k : Nat) :
    eraseD (eraseD l k) k = eraseD l k := by
  induction l with
  | nil => rfl
  | cons hd tl ih =>
    obtain ⟨k', v'⟩ := hd
    by_cases h : k' = k
    · simp [eraseD, h, ih]
    · simp [eraseD, h, ih]

theorem eraseD_of_lookupD_none {α : Type} (l : List (Nat × α)) (k : Nat)
    (h : lookupD l k = none) : eraseD l k = l := by
  induction l with
  | nil => rfl
  | cons hd tl ih =>
    obtain ⟨k', v'⟩ := hd
    by_cases hk : k' = k
    · simp [lookupD, hk] at h
    · simp [lookupD, hk] at h
      simp [eraseD, hk, ih h]

theorem route_resetKw_eq (st : BotState) (m : Msg) (h : m.text = some resetKw) :
    route st m = Route.resetCtx := by
  have d1 : resetKw ≠ ("/start") := by decide
  have d2 : resetKw ≠ ("/help") := by decide
  simp [route, cmdStartHelp, h, d1, d2]

theorem route_genKw_eq (st : BotState) (m : Msg) (h : m.text = some genKw) :
    route st m = Route.askGen := by
  have d1 : genKw ≠ ("/start") := by decide
  have d2 : genKw ≠ ("/help") := by decide
  have d3 : genKw ≠ resetKw := by decide
  simp [route, cmdStartHelp, h, d1, d2, d3]

theorem route_editKw_eq (st : BotState) (m : Msg) (h : m.text = some editKw) :
    route st m = Route.askEdit := by
  have d1 : editKw ≠ ("/start") := by decide
  have d2 : editKw ≠ ("/help") := by decide
  have d3 : editKw ≠ resetKw := by decide
  have d4 : editKw ≠ genKw := by decide
  simp [route, cmdStartHelp, h, d1, d2, d3, d4]

theorem route_plain_nonkeyword (st : BotState) (uid : Nat) (t : String)
    (ht0 : t ≠ "") (ht1 : t ≠ ("/start")) (ht2 : t ≠ ("/help"))
    (ht3 : ¬ t ∈ menuKeywords) :
    route st (plainText uid t) =
      if (lookupD st.user_edit_state uid).isSome then Route.editProcess
      else Route.chat := by
  have hg : t ≠ genKw := by
    intro h
    exact ht3 (by simp [menuKeywords, h])
  have he : t ≠ editKw := by
    intro h
    exact ht3 (by simp [menuKeywords, h])
  have hr : t ≠ resetKw := by
    intro h
    exact ht3 (by simp [menuKeywords, h])
  simp [route, plainText, cmdStartHelp, textTruthy, menuKeywords, ht0, ht1, ht2,
    hg, he, hr]

/-- C3 counterexample: the reset keyword from user 7 is routed to
`reset_context`, yet afterwards the user's pending image-edit state (with
its stored temp file path) still exists — not all per-user state is
removed. -/
theorem reset_keeps_edit_state_cex :
    route c3State (plainText 7 resetKw) = Route.resetCtx ∧
    lookupD (step c3State (plainText 7 resetKw) oAny).state.user_context 7 = none ∧
    lookupD (step c3State (plainText 7 resetKw) oAny).state.user_edit_state 7 =
      some (EditEntry.mk (some ("tmpA"))) := by decide

/-- C3 (amended): the reset keyword removes the user's message history
entirely and is idempotent (a no-op when the user has no history), but it
leaves the pending image-edit state and the temp files untouched. -/
theorem reset_context_spec (st : BotState) (uid : Nat) :
    lookupD (reset_context st uid).state.user_context uid = none ∧
    (reset_context st uid).state.user_edit_state = st.user_edit_state ∧
    (reset_context st uid).state.files = st.files ∧
    (reset_context (reset_context st uid).state uid).state = (reset_context st uid).state ∧
    (lookupD st.user_context uid = none → (reset_context st uid).state = st) := by
  refine ⟨lookupD_eraseD_self _ _, rfl, rfl, ?_, ?_⟩
  · simp [reset_context, eraseD_idem]
  · intro h
    simp [reset_context, eraseD_of_lookupD_none _ _ h]

/-- Witness for `reset_context_spec` at a state where user 3 has no
history: the session is removed (vacuously) and the reset is a no-op. -/
theorem reset_context_spec_witness :
    lookupD (reset_context ⟨[], [], []⟩ 3).state.user_context 3 = none ∧
    (reset_context ⟨[], [], []⟩ 3).state = (⟨[], [], []⟩ : BotState) :=
  ⟨(reset_context_spec ⟨[], [], []⟩ 3).1,
    (reset_context_spec ⟨[], [], []⟩ 3).2.2.2.2 (by decide)⟩

/-- C1 counterexample: four successful chat turns of one user; the histories
passed on the four outbound chat calls have lengths 1, 3, 5 and 7 — the
fourth call exceeds the claimed 6-entry bound. -/
theorem chat_history_exceeds_six_cex :
    ((runChatTurns ⟨[], [], []⟩ 1
      [("a", ChatOutcome.success ("b")), ("c", ChatOutcome.success ("d")),
       ("e", ChatOutcome.success ("f")), ("g", ChatOutcome.success ("h"))]).2.map
        callHistLen) = [1, 3, 5, 7] ∧ 6 < 7 := by decide

/-- C1 (amended): no truncation is applied — every outbound chat call
carries the user's entire stored history plus the new user turn, so its
length is the stored length plus one, unbounded as turns accumulate. -/
theorem chat_history_untruncated (st : BotState) (uid : Nat) (t : String)
    (o : ChatOutcome) :
    ((handle_ai_chat st uid t o).calls.map callHistLen) =
      [((lookupD st.user_context uid).getD []).length + 1] := by
  cases o <;> simp [handle_ai_chat, chatCompletionRequest, callHistLen]

set_option maxRecDepth 8192 in
/-- C2 counterexample: a 501-character prompt is not rejected; the
image-generation adapter is invoked for it anyway, since the handler
performs no length validation. -/
theorem oversized_prompt_reaches_adapter_cex :
    500 < longPrompt.length ∧
    (generate_image ⟨[], [], []⟩ longPrompt (ApiOutcome.ok ("img"))).calls ≠ [] := by
  constructor
  · show 500 < (String.mk (List.replicate 501 'a')).length
    rw [String.length, List.length_replicate]
    decide
  · simp [generate_image, stabilityPost]

/-- C2 (amended): `generate_image` validates nothing about the prompt
length — for every prompt text, however long, exactly one image-generation
call carrying the stripped text is issued. -/
theorem generate_image_always_calls (st : BotState) (text : String) (o : ApiOutcome) :
    (generate_image st text o).calls = [AdapterCall.imageGen text.trim] := by
  cases o with
  | ok payload => rfl
  | httpError code errMsg =>
    by_cases h : code = 200 <;> simp [generate_image, stabilityPost, h]
  | exn errMsg => rfl

/-- C4: when an edit flow with a stored, existing temp image is pending and
a text instruction arrives at `process_image_edit`, the temp file is deleted
and the edit state dropped afterwards, for every upstream outcome — success,
HTTP error status, or a raised exception. -/
theorem edit_temp_file_always_deleted (st : BotState) (uid : Nat) (t p : String)
    (o : ApiOutcome)
    (h1 : lookupD st.user_edit_state uid = some (EditEntry.mk (some p)))
    (h2 : st.files.contains p = true) :
    ¬ p ∈ (process_image_edit st uid t o).state.files ∧
    lookupD (process_image_edit st uid t o).state.user_edit_state uid = none := by
  have hmem : p ∈ st.files := by simpa using h2
  unfold process_image_edit
  rw [h1]
  simp [hmem, lookupD_eraseD_self, List.mem_filter]

/-- Witness for `edit_temp_file_always_deleted`: user 2 has the stored
existing image "tmpB", the upstream call raises, and afterwards the file is
gone and the edit state cleared. -/
theorem edit_temp_file_always_deleted_witness :
    ¬ ("tmpB") ∈ (process_image_edit
        ⟨[], [(2, EditEntry.mk (some ("tmpB")))], ["tmpB"]⟩ 2 ("x")
        (ApiOutcome.exn ("boom"))).state.files ∧
    lookupD (process_image_edit
        ⟨[], [(2, EditEntry.mk (some ("tmpB")))], ["tmpB"]⟩ 2 ("x")
        (ApiOutcome.exn ("boom"))).state.user_edit_state 2 = none :=
  edit_temp_file_always_deleted ⟨[], [(2, EditEntry.mk (some ("tmpB")))], ["tmpB"]⟩
    2 ("x") ("tmpB") (ApiOutcome.exn ("boom")) (by decide) (by decide)

/-- C5 counterexample: with an edit flow pending for user 1 (keyword tapped,
photo uploaded, temp file "tmp" stored), the next text message — the reset
keyword — is routed to `reset_context`, so it is not consumed as the prompt,
no image-edit call is made, and the awaiting edit state survives the turn. -/
theorem awaiting_state_survives_keyword_cex :
    lookupD c5PendingState.user_edit_state 1 = some (EditEntry.mk (some ("tmp"))) ∧
    route c5PendingState (plainText 1 resetKw) = Route.resetCtx ∧
    (step c5PendingState (plainText 1 resetKw) oAny).calls = [] ∧
    lookupD (step c5PendingState (plainText 1 resetKw) oAny).state.user_edit_state 1 =
      some (EditEntry.mk (some ("tmp"))) := by decide

/-- C5 (amended): with an edit flow with a stored image pending, the next
plain text message that is not a menu keyword and not a /start or /help
command is consumed by `process_image_edit` as the edit instruction and the
awaiting state is cleared, so a second such text message from the same user
is routed as an ordinary chat turn, not as a prompt. -/
theorem awaiting_edit_state_one_shot (st : BotState) (uid : Nat) (t t' p : String)
    (o : Outcomes)
    (hpend : lookupD st.user_edit_state uid = some (EditEntry.mk (some p)))
    (hfile : st.files.contains p = true)
    (ht0 : t ≠ "") (ht1 : t ≠ ("/start")) (ht2 : t ≠ ("/help"))
    (ht3 : ¬ t ∈ menuKeywords)
    (hs0 : t' ≠ "") (hs1 : t' ≠ ("/start")) (hs2 : t' ≠ ("/help"))
    (hs3 : ¬ t' ∈ menuKeywords) :
    route st (plainText uid t) = Route.editProcess ∧
    (step st (plainText uid t) o).calls = [AdapterCall.imageEdit p t] ∧
    lookupD (step st (plainText uid t) o).state.user_edit_state uid = none ∧
    route (step st (plainText uid t) o).state (plainText uid t') = Route.chat := by
  have hmem : p ∈ st.files := by simpa using hfile
  have hr : route st (plainText uid t) = Route.editProcess := by
    rw [route_plain_nonkeyword st uid t ht0 ht1 ht2 ht3, hpend]
    rfl
  have hstep : step st (plainText uid t) o =
      process_image_edit st uid t o.edit := by
    unfold step
    rw [hr]
    rfl
  have hedit : lookupD (process_image_edit st uid t o.edit).state.user_edit_state uid =
      none := by
    unfold process_image_edit
    rw [hpend]
    simp [hmem, lookupD_eraseD_self]
  have hcalls : (process_image_edit st uid t o.edit).calls =
      [AdapterCall.imageEdit p t] := by
    unfold process_image_edit
    rw [hpend]
    simp [hmem]
  refine ⟨hr, by rw [hstep]; exact hcalls, by rw [hstep]; exact hedit, ?_⟩
  rw [hstep, route_plain_nonkeyword _ uid t' hs0 hs1 hs2 hs3, hedit]
  rfl

/-- Witness for `awaiting_edit_state_one_shot`: user 1 with stored image
"tmp" sends "hi" (consumed as the edit instruction, state cleared), and a
subsequent "again" would be routed as ordinary chat. -/
theorem awaiting_edit_state_one_shot_witness :
    route (⟨[], [(1, EditEntry.mk (some ("tmp")))], ["tmp"]⟩ : BotState)
      (plainText 1 ("hi")) = Route.editProcess ∧
    (step ⟨[], [(1, EditEntry.mk (some ("tmp")))], ["tmp"]⟩ (plainText 1 ("hi"))
      oAny).calls = [AdapterCall.imageEdit ("tmp") ("hi")] ∧
    lookupD (step ⟨[], [(1, EditEntry.mk (some ("tmp")))], ["tmp"]⟩
      (plainText 1 ("hi")) oAny).state.user_edit_state 1 = none ∧
    route (step ⟨[], [(1, EditEntry.mk (some ("tmp")))], ["tmp"]⟩
      (plainText 1 ("hi")) oAny).state (plainText 1 ("again")) = Route.chat :=
  awaiting_edit_state_one_shot ⟨[], [(1, EditEntry.mk (some ("tmp")))], ["tmp"]⟩
    1 ("hi") ("again") ("tmp") oAny (by decide) (by decide) (by decide) (by decide)
    (by decide) (by decide) (by decide) (by decide) (by decide) (by decide)

/-- C6: a message whose text equals one of the three menu keywords is never
routed to the fallback chat handler: the turn makes no adapter call at all,
and no user's stored history gains an entry (each history is either
unchanged or removed). -/
theorem menu_keyword_never_chat (st : BotState) (m : Msg) (o : Outcomes) (k : String)
    (h1 : m.text = some k) (h2 : k ∈ menuKeywords) :
    route st m ≠ Route.chat ∧
    (step st m o).calls = [] ∧
    ∀ u, lookupD (step st m o).state.user_context u = lookupD st.user_context u ∨
      lookupD (step st m o).state.user_context u = none := by
  have h2' : k = genKw ∨ k = editKw ∨ k = resetKw := by
    simpa [menuKeywords] using h2
  rcases h2' with rfl | rfl | rfl
  · have hr := route_genKw_eq st m h1
    refine ⟨by simp [hr], by simp [step, hr, ask_gen_prompt], ?_⟩
    intro u
    left
    simp [step, hr, ask_gen_prompt]
  · have hr := route_editKw_eq st m h1
    refine ⟨by simp [hr], by simp [step, hr, ask_edit_photo], ?_⟩
    intro u
    left
    simp [step, hr, ask_edit_photo]
  · have hr := route_resetKw_eq st m h1
    refine ⟨by simp [hr], by simp [step, hr, reset_context], ?_⟩
    intro u
    by_cases hu : u = m.uid
    · right
      simp [step, hr, reset_context, hu, lookupD_eraseD_self]
    · left
      simp [step, hr, reset_context, lookupD_eraseD_ne _ _ _ hu]

/-- Witness for `menu_keyword_never_chat`: user 9 sends the reset keyword;
it is not routed to chat, no adapter call happens, and user 9's (empty)
history is not appended to. -/
theorem menu_keyword_never_chat_witness :
    route ⟨[], [], []⟩ (plainText 9 resetKw) ≠ Route.chat ∧
    (step ⟨[], [], []⟩ (plainText 9 resetKw) oAny).calls = [] ∧
    (lookupD (step ⟨[], [], []⟩ (plainText 9 resetKw) oAny).state.user_context 9 =
        lookupD (⟨[], [], []⟩ : BotState).user_context 9 ∨
      lookupD (step ⟨[], [], []⟩ (plainText 9 resetKw) oAny).state.user_context 9 =
        none) := by
  obtain ⟨a, b, c⟩ :=
    menu_keyword_never_chat ⟨[], [], []⟩ (plainText 9 resetKw) oAny resetKw rfl
      (by decide)
  exact ⟨a, b, c 9⟩

/-- C7: a webhook request whose body is not a well-formed update (non-JSON,
invalid update schema, or failing message validation) is answered with a 4xx
status and never reaches the dispatcher; a well-formed POSTed JSON update
whose dispatch succeeds is answered 200 with body "OK". -/
theorem webhook_boundary (req : HttpRequest) (dispatchOk : Bool) :
    (req.body.isGood = false →
      400 ≤ (webhook_handler req dispatchOk).status ∧
      (webhook_handler req dispatchOk).status < 500 ∧
      (webhook_handler req dispatchOk).reachedRouter = false) ∧
    (∀ m, req.method = ("POST") → req.contentType = ("application/json") →
      req.body = ReqBody.goodUpdate m → dispatchOk = true →
      (webhook_handler req dispatchOk).status = 200 ∧
      (webhook_handler req dispatchOk).bodyText = ("OK")) := by
  obtain ⟨method, ct, body⟩ := req
  constructor
  · intro h
    by_cases hm : method = ("POST")
    · by_cases hc : ct = ("application/json")
      · cases body with
        | notJson => simp [webhook_handler, hm, hc]
        | invalidUpdate => simp [webhook_handler, hm, hc]
        | invalidMessage => simp [webhook_handler, hm, hc]
        | goodUpdate m => simp [ReqBody.isGood] at h
      · simp [webhook_handler, hm, hc]
    · simp [webhook_handler, hm]
  · intro m hm hc hb hd
    subst hm
    subst hc
    subst hb
    subst hd
    simp [webhook_handler]

/-- Witness for `webhook_boundary`: a POSTed non-JSON body yields 400 and
never reaches the Router; a well-formed dispatched update yields 200 "OK". -/
theorem webhook_boundary_witness :
    (400 ≤ (webhook_handler ⟨("POST"), ("application/json"), ReqBody.notJson⟩
        true).status ∧
      (webhook_handler ⟨("POST"), ("application/json"), ReqBody.notJson⟩
        true).status < 500 ∧
      (webhook_handler ⟨("POST"), ("application/json"), ReqBody.notJson⟩
        true).reachedRouter = false) ∧
    ((webhook_handler ⟨("POST"), ("application/json"),
        ReqBody.goodUpdate (plainText 1 ("hi"))⟩ true).status = 200 ∧
      (webhook_handler ⟨("POST"), ("application/json"),
        ReqBody.goodUpdate (plainText 1 ("hi"))⟩ true).bodyText = ("OK")) :=
  ⟨(webhook_boundary ⟨("POST"), ("application/json"), ReqBody.notJson⟩ true).1 rfl,
    (webhook_boundary ⟨("POST"), ("application/json"),
      ReqBody.goodUpdate (plainText 1 ("hi"))⟩ true).2 (plainText 1 ("hi"))
      rfl rfl rfl rfl⟩

/-- C8: adapter failures are contained by the handlers. A raised exception
in the DeepSeek request is an `Except.error` of `chatCompletionRequest`, yet
`handle_ai_chat` returns a normal turn whose reply is the error message; the
same holds of `generate_image` for a Stability exception; and
`process_image_edit` on an exception still answers an error message while
deleting the temp file, leaving the process ready for the next event. -/
theorem adapter_failures_contained (st : BotState) (uid : Nat) (t e p : String)
    (h1 : lookupD st.user_edit_state uid = some (EditEntry.mk (some p)))
    (h2 : st.files.contains p = true) :
    chatCompletionRequest (ChatOutcome.failure e) = Except.error e ∧
    (handle_ai_chat st uid t (ChatOutcome.failure e)).replies =
      [Reply.text ("⚠️ Ошибка: " ++ e)] ∧
    stabilityPost (ApiOutcome.exn e) = Except.error e ∧
    (generate_image st t (ApiOutcome.exn e)).replies =
      [Reply.text ("⚠️ Ошибка: " ++ e)] ∧
    (process_image_edit st uid t (ApiOutcome.exn e)).replies =
      [Reply.text ("⚠️ Ошибка API: " ++ e)] ∧
    ¬ p ∈ (process_image_edit st uid t (ApiOutcome.exn e)).state.files := by
  have hmem : p ∈ st.files := by simpa using h2
  refine ⟨rfl, rfl, rfl, rfl, ?_, ?_⟩
  · unfold process_image_edit
    rw [h1]
    simp [hmem, stabilityPost]
  · unfold process_image_edit
    rw [h1]
    simp [hmem, List.mem_filter]

/-- Witness for `adapter_failures_contained`: user 6 with stored image
"tmpC"; every failing call is answered with an error message and the temp
file is deleted. -/
theorem adapter_failures_contained_witness :
    chatCompletionRequest (ChatOutcome.failure ("down")) = Except.error ("down") ∧
    (handle_ai_chat ⟨[], [(6, EditEntry.mk (some ("tmpC")))], ["tmpC"]⟩ 6 ("hi")
      (ChatOutcome.failure ("down"))).replies =
        [Reply.text ("⚠️ Ошибка: " ++ ("down"))] ∧
    stabilityPost (ApiOutcome.exn ("down")) = Except.error ("down") ∧
    (generate_image ⟨[], [(6, EditEntry.mk (some ("tmpC")))], ["tmpC"]⟩ ("hi")
      (ApiOutcome.exn ("down"))).replies =
        [Reply.text ("⚠️ Ошибка: " ++ ("down"))] ∧
    (process_image_edit ⟨[], [(6, EditEntry.mk (some ("tmpC")))], ["tmpC"]⟩ 6 ("hi")
      (ApiOutcome.exn ("down"))).replies =
        [Reply.text ("⚠️ Ошибка API: " ++ ("down"))] ∧
    ¬ ("tmpC") ∈ (process_image_edit
      ⟨[], [(6, EditEntry.mk (some ("tmpC")))], ["tmpC"]⟩ 6 ("hi")
      (ApiOutcome.exn ("down"))).state.files :=
  adapter_failures_contained ⟨[], [(6, EditEntry.mk (some ("tmpC")))], ["tmpC"]⟩
    6 ("hi") ("down") ("tmpC") (by decide) (by decide)

/-- C9 counterexample: user 5 taps the edit keyword, then issues the reset
keyword; because reset does not clear the pending edit state, the next
message "hello" is routed to `process_image_edit` — no chat call with the
one-entry history `[{user, hello}]` (indeed no adapter call at all) is
made. -/
theorem fresh_after_reset_cex :
    lookupD c9State.user_context 5 = none ∧
    route c9State (plainText 5 ("hello")) = Route.editProcess ∧
    (step c9State (plainText 5 ("hello")) oAny).calls = [] := by decide

/-- C9 (amended): for a user with no stored context and no pending edit
state — any never-seen user, and a just-reset user provided no edit flow was
pending (reset does not clear one) — the first message "hello" is routed to
chat and the outbound call carries exactly the one-entry history
`[{user, hello}]`. -/
theorem first_hello_one_entry_history (st : BotState) (uid : Nat) (o : Outcomes)
    (hctx : lookupD st.user_context uid = none)
    (hedit : lookupD st.user_edit_state uid = none) :
    (step st (plainText uid ("hello")) o).calls =
      [AdapterCall.chatCall [ChatMsg.mk ("user") ("hello")]] := by
  have hr : route st (plainText uid ("hello")) = Route.chat := by
    rw [route_plain_nonkeyword st uid ("hello") (by decide) (by decide) (by decide)
      (by decide), hedit]
    rfl
  have hstep : step st (plainText uid ("hello")) o =
      handle_ai_chat st uid ("hello") o.chat := by
    unfold step
    rw [hr]
    rfl
  rw [hstep]
  cases h : o.chat <;> simp [handle_ai_chat, chatCompletionRequest, hctx]

/-- Witness for `first_hello_one_entry_history`: the never-seen user 4 sends
"hello" and the chat adapter receives exactly the one-entry history. -/
theorem first_hello_one_entry_history_witness :
    (step ⟨[], [], []⟩ (plainText 4 ("hello")) oAny).calls =
      [AdapterCall.chatCall [ChatMsg.mk ("user") ("hello")]] :=
  first_hello_one_entry_history ⟨[], [], []⟩ 4 oAny rfl rfl

/-- C10: `handle_ai_chat` appends the user turn to the stored history before
the adapter call — the outbound call carries the stored history plus the new
user turn; on a failed call the stored history keeps the user turn and gains
no assistant turn, while on success the assistant turn is appended after
it. -/
theorem append_before_call (st : BotState) (uid : Nat) (t : String) (o : ChatOutcome) :
    (handle_ai_chat st uid t o).calls =
      [AdapterCall.chatCall (((lookupD st.user_context uid).getD []) ++
        [ChatMsg.mk ("user") t])] ∧
    (∀ e, o = ChatOutcome.failure e →
      lookupD (handle_ai_chat st uid t o).state.user_context uid =
        some (((lookupD st.user_context uid).getD []) ++ [ChatMsg.mk ("user") t])) ∧
    (∀ a, o = ChatOutcome.success a →
      lookupD (handle_ai_chat st uid t o).state.user_context uid =
        some (((lookupD st.user_context uid).getD []) ++
          [ChatMsg.mk ("user") t, ChatMsg.mk ("assistant") a])) := by
  refine ⟨?_, ?_, ?_⟩
  · cases o <;> rfl
  · rintro e rfl
    simp [handle_ai_chat, chatCompletionRequest, lookupD_insertD_self]
  · rintro a rfl
    simp [handle_ai_chat, chatCompletionRequest, lookupD_insertD_self]

/-- Witness for `append_before_call`: user 2 sends "hi", the adapter fails,
and the stored history still holds the user turn just sent upstream. -/
theorem append_before_call_witness :
    (handle_ai_chat ⟨[], [], []⟩ 2 ("hi") (ChatOutcome.failure ("down"))).calls =
      [AdapterCall.chatCall [ChatMsg.mk ("user") ("hi")]] ∧
    lookupD (handle_ai_chat ⟨[], [], []⟩ 2 ("hi")
      (ChatOutcome.failure ("down"))).state.user_context 2 =
        some [ChatMsg.mk ("user") ("hi")] := by
  obtain ⟨a, b, c⟩ := append_before_call ⟨[], [], []⟩ 2 ("hi")
    (ChatOutcome.failure ("down"))
  exact ⟨by simpa using a, by simpa using b ("down") rfl⟩
